import Mathlib

/-!
# Verification of `scripts/extract-oci-description.py`

Shallow embedding of the label-extraction script. The script:

1. resolves a path from `sys.argv` (`sys.argv[1]` when `len(sys.argv) > 1`,
   the literal `"Dockerfile"` otherwise);
2. reads the file with `pathlib.Path.read_text`, catching only `OSError`
   (a `UnicodeDecodeError` is a `ValueError`, not an `OSError`, so it is
   NOT caught and escapes `main`, making the interpreter print a traceback
   and exit with status 1);
3. runs `re.search` with the pattern
   `org\.opencontainers\.image\.description\s*=\s*"([^"]+)"` over the text;
4. on no match, prints a fixed message to stderr and returns 3;
5. on a match, prints the first capture group to stdout and returns 0.

The regex is embedded as a deterministic matcher. For this particular
pattern, Python's backtracking is determinate at every choice point:
`\s*` before `=` (resp. before `"`) must consume the maximal whitespace
run, because giving characters back would require `=` (resp. `"`) to match
a whitespace character, which fails; `[^"]+` must consume the maximal run
of non-quote characters, because the following `"` cannot match a
non-quote character. Note that the character class `[^"]` matches `\n`
(negated classes always match newline in Python, independent of DOTALL).
`re.search` returns the match at the leftmost position where the pattern
matches, which the recursive scan `searchFirst` reproduces.
-/

namespace ExtractOciDescription

/-- Characters matched by Python's regex class `\s` on `str` input:
the six ASCII whitespace characters plus the Unicode whitespace
characters recognised by CPython's `re` module. -/
def isRegexSpace (c : Char) : Bool :=
  c == ' ' || c == '\t' || c == '\n' || c == '\r' || c == '\x0b' || c == '\x0c' ||
  c == '\x1c' || c == '\x1d' || c == '\x1e' || c == '\x1f' ||
  c == '\x85' || c == '\xa0' || c == '\u1680' ||
  (0x2000 ≤ c.toNat && c.toNat ≤ 0x200a) ||
  c == '\u2028' || c == '\u2029' || c == '\u202f' || c == '\u205f' || c == '\u3000'

/-- The literal part of the pattern: `org\.opencontainers\.image\.description`
(every dot is escaped in the regex, so it matches these exact characters). -/
def keyChars : List Char := "org.opencontainers.image.description".data

/-- Match a literal character sequence at the front of the input, returning
the remainder on success (the regex semantics of a literal). -/
def stripLit : List Char → List Char → Option (List Char)
  | [], s => some s
  | _ :: _, [] => none
  | p :: ps, c :: cs => if c = p then stripLit ps cs else none

/-- The regex fragment `([^"]+)"` applied to the text after the opening
quote: the capture is the maximal run of non-quote characters, which must
be nonempty (`+`) and must be followed by a closing `"`. -/
def quotedVal (r : List Char) : Option (List Char) :=
  let cap := List.takeWhile (fun c => c != '"') r
  if cap.isEmpty then none
  else
    match List.dropWhile (fun c => c != '"') r with
    | '"' :: _ => some cap
    | _ => none

/-- Whether the whole pattern
`org\.opencontainers\.image\.description\s*=\s*"([^"]+)"` matches at the
start of `s`, and with which capture. Backtracking is determinate for this
pattern (see the module docstring), so one greedy pass is faithful. -/
def matchAt (s : List Char) : Option (List Char) :=
  match stripLit keyChars s with
  | none => none
  | some r1 =>
    match List.dropWhile isRegexSpace r1 with
    | '=' :: r2 =>
      match List.dropWhile isRegexSpace r2 with
      | '"' :: r3 => quotedVal r3
      | _ => none
    | _ => none

/-- `re.search`: the capture of the match at the leftmost position where
the pattern matches, if any. -/
def searchFirst : List Char → Option (List Char)
  | [] => matchAt []
  | c :: t =>
    match matchAt (c :: t) with
    | some v => some v
    | none => searchFirst t

/-- Result of `pathlib.Path.read_text` as seen by the script's `try` block. -/
inductive ReadResult where
  /-- The read succeeded and produced this text. -/
  | ok (text : List Char)
  /-- `read_text` raised an `OSError` (file missing, permission denied, ...)
  with this message; the script catches it. -/
  | osError (exc : List Char)
  /-- `read_text` raised a `UnicodeDecodeError` (a `ValueError`, not an
  `OSError`) with this message; the script does not catch it. -/
  | unicodeDecodeError (exc : List Char)
deriving DecidableEq

/-- Observable outcome of one invocation of the script. -/
inductive Outcome where
  /-- `main` returned normally: `raise SystemExit(main())` exits with
  `main`'s return value, after the given stdout and stderr output. -/
  | exited (stdout stderr : List Char) (code : Nat)
  /-- An exception escaped `main`: the interpreter prints a traceback
  carrying the exception message to stderr and exits with status 1;
  nothing is written to stdout. -/
  | uncaught (exc : List Char)
deriving DecidableEq

/-- The process exit status of an outcome (an unhandled exception makes
the CPython interpreter exit with status 1). -/
def exitCodeOf : Outcome → Nat
  | .exited _ _ c => c
  | .uncaught _ => 1

/-- What the invocation wrote to stdout (nothing, for an unhandled
exception). -/
def stdoutOf : Outcome → List Char
  | .exited out _ _ => out
  | .uncaught _ => []

/-- `pathlib.Path(sys.argv[1]) if len(sys.argv) > 1 else pathlib.Path("Dockerfile")`.
`argv` is the full `sys.argv`, program name included. -/
def resolvePath (argv : List String) : String :=
  if h : 1 < argv.length then argv.get ⟨1, h⟩ else "Dockerfile"

/-- The stderr line of the read-failure branch:
`f"Failed to read Dockerfile at {dockerfile_path}: {exc}"` plus the
newline appended by `print`. -/
def failMsg (path : String) (exc : List Char) : List Char :=
  "Failed to read Dockerfile at ".data ++ path.data ++ ": ".data ++ exc ++ ['\n']

/-- The stderr line of the missing-label branch, plus the newline
appended by `print`. -/
def missingMsg : List Char :=
  "Missing org.opencontainers.image.description label in Dockerfile".data ++ ['\n']

/-- One invocation of the script: `fs` gives the outcome of reading each
path, `argv` is `sys.argv`. Mirrors `main` line by line. -/
def run (fs : String → ReadResult) (argv : List String) : Outcome :=
  let path := resolvePath argv
  match fs path with
  | .osError exc => .exited [] (failMsg path exc) 2
  | .unicodeDecodeError exc => .uncaught exc
  | .ok text =>
    match searchFirst text with
    | none => .exited [] missingMsg 3
    | some v => .exited (v ++ ['\n']) [] 0

/-- One occurrence of the label assignment in a file's text:
the key, optional whitespace, `=`, optional whitespace, then the quoted
value followed by the rest of the file. -/
def labelOcc (ws1 ws2 v tail : List Char) : List Char :=
  keyChars ++ ws1 ++ '=' :: (ws2 ++ '"' :: (v ++ '"' :: tail))

/-! ## Helper lemmas about the matcher -/

theorem stripLit_self_append (p r : List Char) : stripLit p (p ++ r) = some r := by
  induction p with
  | nil => rfl
  | cons a ps ih => simp [stripLit, ih]

theorem stripLit_eq_none_of_not_isPrefixOf (p : List Char) :
    ∀ s : List Char, p.isPrefixOf s = false → stripLit p s = none := by
  induction p with
  | nil => intro s h; simp [List.isPrefixOf] at h
  | cons a ps ih =>
    intro s h
    cases s with
    | nil => rfl
    | cons c cs =>
      by_cases hc : c = a
      · subst hc
        have hps : ps.isPrefixOf cs = false := by simpa [List.isPrefixOf] using h
        simpa [stripLit] using ih cs hps
      · simp [stripLit, hc]

theorem dropWhile_all_append (p : Char → Bool) (ws r : List Char)
    (h : ∀ c ∈ ws, p c = true) :
    List.dropWhile p (ws ++ r) = List.dropWhile p r := by
  induction ws with
  | nil => rfl
  | cons a t ih =>
    have ha : p a = true := h a (by simp)
    simp only [List.cons_append, List.dropWhile, ha, if_true]
    exact ih (fun c hc => h c (by simp [hc]))

theorem dropWhile_cons_of_false (p : Char → Bool) (c : Char) (r : List Char)
    (hc : p c = false) :
    List.dropWhile p (c :: r) = c :: r := by
  simp [List.dropWhile, hc]

theorem dropWhile_all_append_cons (p : Char → Bool) (ws : List Char) (c : Char)
    (r : List Char) (h : ∀ x ∈ ws, p x = true) (hc : p c = false) :
    List.dropWhile p (ws ++ c :: r) = c :: r := by
  rw [dropWhile_all_append p ws (c :: r) h]
  exact dropWhile_cons_of_false p c r hc

theorem takeWhile_all_append (p : Char → Bool) (v : List Char) (c : Char)
    (r : List Char) (hv : ∀ x ∈ v, p x = true) (hc : p c = false) :
    List.takeWhile p (v ++ c :: r) = v := by
  induction v with
  | nil => simp [List.takeWhile, hc]
  | cons a t ih =>
    have ha : p a = true := hv a (by simp)
    simp only [List.cons_append, List.takeWhile, ha, if_true, List.append_eq]
    rw [ih (fun x hx => hv x (by simp [hx]))]

theorem quotedVal_append (v tail : List Char) (hv : v ≠ []) (hq : '"' ∉ v) :
    quotedVal (v ++ '"' :: tail) = some v := by
  have hvp : ∀ x ∈ v, (x != '"') = true := by
    intro x hx
    simp only [bne_iff_ne, ne_eq]
    exact fun he => hq (he ▸ hx)
  have htake := takeWhile_all_append (fun c => c != '"') v '"' tail hvp (by simp)
  have hdrop := dropWhile_all_append_cons (fun c => c != '"') v '"' tail hvp (by simp)
  simp only [quotedVal, htake, hdrop]
  simp [hv]

theorem matchAt_key_append (r : List Char) :
    matchAt (keyChars ++ r) = (match List.dropWhile isRegexSpace r with
      | '=' :: r2 =>
        match List.dropWhile isRegexSpace r2 with
        | '"' :: r3 => quotedVal r3
        | _ => none
      | _ => none) := by
  unfold matchAt
  rw [stripLit_self_append]

theorem matchAt_labelOcc (ws1 ws2 v tail : List Char)
    (hws1 : ∀ c ∈ ws1, isRegexSpace c = true)
    (hws2 : ∀ c ∈ ws2, isRegexSpace c = true)
    (hv : v ≠ []) (hq : '"' ∉ v) :
    matchAt (labelOcc ws1 ws2 v tail) = some v := by
  have h2 : List.dropWhile isRegexSpace (ws1 ++ '=' :: (ws2 ++ '"' :: (v ++ '"' :: tail)))
      = '=' :: (ws2 ++ '"' :: (v ++ '"' :: tail)) :=
    dropWhile_all_append_cons _ _ _ _ hws1 (by decide)
  have h3 : List.dropWhile isRegexSpace (ws2 ++ '"' :: (v ++ '"' :: tail))
      = '"' :: (v ++ '"' :: tail) :=
    dropWhile_all_append_cons _ _ _ _ hws2 (by decide)
  have hocc : labelOcc ws1 ws2 v tail
      = keyChars ++ (ws1 ++ '=' :: (ws2 ++ '"' :: (v ++ '"' :: tail))) := rfl
  rw [hocc, matchAt_key_append]
  simp only [h2, h3]
  exact quotedVal_append v tail hv hq

theorem matchAt_nil : matchAt [] = none := rfl

theorem matchAt_eq_none_of_not_key (s : List Char)
    (h : keyChars.isPrefixOf s = false) :
    matchAt s = none := by
  simp only [matchAt, stripLit_eq_none_of_not_isPrefixOf keyChars s h]

theorem matchAt_labelOcc_empty (ws1 ws2 post : List Char)
    (hws1 : ∀ c ∈ ws1, isRegexSpace c = true)
    (hws2 : ∀ c ∈ ws2, isRegexSpace c = true) :
    matchAt (labelOcc ws1 ws2 [] post) = none := by
  have h2 : List.dropWhile isRegexSpace (ws1 ++ '=' :: (ws2 ++ '"' :: ('"' :: post)))
      = '=' :: (ws2 ++ '"' :: ('"' :: post)) :=
    dropWhile_all_append_cons _ _ _ _ hws1 (by decide)
  have h3 : List.dropWhile isRegexSpace (ws2 ++ '"' :: ('"' :: post))
      = '"' :: ('"' :: post) :=
    dropWhile_all_append_cons _ _ _ _ hws2 (by decide)
  have hocc : labelOcc ws1 ws2 [] post
      = keyChars ++ (ws1 ++ '=' :: (ws2 ++ '"' :: ('"' :: post))) := rfl
  rw [hocc, matchAt_key_append]
  simp only [h2, h3]
  rfl

theorem searchFirst_cons_none (c : Char) (t : List Char)
    (h : matchAt (c :: t) = none) :
    searchFirst (c :: t) = searchFirst t := by
  simp only [searchFirst, h]

theorem searchFirst_eq_some_of_matchAt (s v : List Char) (h : matchAt s = some v) :
    searchFirst s = some v := by
  cases s with
  | nil => rw [matchAt_nil] at h; exact absurd h (by simp)
  | cons c t => simp only [searchFirst, h]

theorem searchFirst_append_of_none (pre s : List Char)
    (h : ∀ i < pre.length, matchAt (List.drop i (pre ++ s)) = none) :
    searchFirst (pre ++ s) = searchFirst s := by
  induction pre with
  | nil => rfl
  | cons a t ih =>
    have h0 : matchAt (a :: (t ++ s)) = none := by simpa using h 0 (by simp)
    rw [List.cons_append, searchFirst_cons_none a (t ++ s) h0]
    exact ih (fun i hi => by
      simpa [List.drop_succ_cons] using h (i + 1) (by simpa using Nat.succ_lt_succ hi))

theorem searchFirst_eq_none (s : List Char)
    (h : ∀ i, matchAt (List.drop i s) = none) :
    searchFirst s = none := by
  induction s with
  | nil => show matchAt [] = none; exact matchAt_nil
  | cons a t ih =>
    have h0 : matchAt (a :: t) = none := by simpa using h 0
    rw [searchFirst_cons_none a t h0]
    exact ih (fun i => by simpa [List.drop_succ_cons] using h (i + 1))

/-- Core success lemma: if the file read at the resolved path yields a text
consisting of a prefix in which no match can start (the key is nowhere a
prefix of a suffix beginning there) followed by an occurrence of the label
with a nonempty quote-free value, the script prints that value and a
newline to stdout, writes nothing to stderr, and exits 0. -/
theorem run_success_of_labelOcc (fs : String → ReadResult) (argv : List String)
    (pre ws1 ws2 v tail : List Char)
    (hpre : ∀ i < pre.length,
      keyChars.isPrefixOf (List.drop i (pre ++ labelOcc ws1 ws2 v tail)) = false)
    (hws1 : ∀ c ∈ ws1, isRegexSpace c = true)
    (hws2 : ∀ c ∈ ws2, isRegexSpace c = true)
    (hv : v ≠ []) (hq : '"' ∉ v)
    (hfs : fs (resolvePath argv) = .ok (pre ++ labelOcc ws1 ws2 v tail)) :
    run fs argv = .exited (v ++ ['\n']) [] 0 := by
  have hsearch : searchFirst (pre ++ labelOcc ws1 ws2 v tail) = some v := by
    rw [searchFirst_append_of_none pre _
      (fun i hi => matchAt_eq_none_of_not_key _ (hpre i hi))]
    exact searchFirst_eq_some_of_matchAt _ v (matchAt_labelOcc ws1 ws2 v tail hws1 hws2 hv hq)
  simp only [run, hfs, hsearch]

/-! ## Claim theorems -/

/-- C1: for every input file whose text consists of a region in which no
match can start followed by `org.opencontainers.image.description`,
optional whitespace, `=`, optional whitespace, and a double-quoted value
X containing no double quote, the tool writes exactly X followed by a
newline to standard output (and nothing to standard error) and
terminates with exit status 0. -/
theorem c1_success_prints_value (fs : String → ReadResult) (argv : List String)
    (pre ws1 ws2 v tail : List Char)
    (hpre : ∀ i < pre.length,
      keyChars.isPrefixOf (List.drop i (pre ++ labelOcc ws1 ws2 v tail)) = false)
    (hws1 : ∀ c ∈ ws1, isRegexSpace c = true)
    (hws2 : ∀ c ∈ ws2, isRegexSpace c = true)
    (hv : v ≠ []) (hq : '"' ∉ v)
    (hfs : fs (resolvePath argv) = .ok (pre ++ labelOcc ws1 ws2 v tail)) :
    run fs argv = .exited (v ++ ['\n']) [] 0 :=
  run_success_of_labelOcc fs argv pre ws1 ws2 v tail hpre hws1 hws2 hv hq hfs

theorem c1_witness :
    run (fun p => if p = "Dockerfile"
          then ReadResult.ok "LABEL org.opencontainers.image.description = \"A sample image\"\n".data
          else ReadResult.osError "No such file or directory".data)
        ["extract-oci-description.py"]
      = .exited ("A sample image".data ++ ['\n']) [] 0 :=
  c1_success_prints_value
    (fun p => if p = "Dockerfile"
      then ReadResult.ok "LABEL org.opencontainers.image.description = \"A sample image\"\n".data
      else ReadResult.osError "No such file or directory".data)
    ["extract-oci-description.py"]
    "LABEL ".data [' '] [' '] "A sample image".data ['\n']
    (by decide) (by decide) (by decide) (by decide) (by decide) (by decide)

/-- C2 counterexample: a read failure caused by an encoding error
(`UnicodeDecodeError`) is not an `OSError`, so the `except OSError` branch
does not run: the exception escapes `main` and the process exits with
status 1, not 2 as the claim states for every read failure. -/
theorem c2_counterexample :
    run (fun _ => ReadResult.unicodeDecodeError "utf-8 codec cannot decode byte 0xff".data)
        ["extract-oci-description.py"]
      = .uncaught "utf-8 codec cannot decode byte 0xff".data
    ∧ exitCodeOf (run
        (fun _ => ReadResult.unicodeDecodeError "utf-8 codec cannot decode byte 0xff".data)
        ["extract-oci-description.py"]) ≠ 2 := by
  exact ⟨rfl, by decide⟩

/-- C2 (amended): for every `OSError` read failure of the resolved path
(file missing, permission denied, ...), the tool emits to standard error
exactly `Failed to read Dockerfile at <path>: <exc>` — a message that
includes the resolved path and the underlying failure description — and
terminates with exit status 2; an encoding error is not an `OSError` and
instead escapes as an unhandled exception (exit status 1). -/
theorem c2_oserror_exits_2 (fs : String → ReadResult) (argv : List String)
    (exc : List Char)
    (hfs : fs (resolvePath argv) = .osError exc) :
    run fs argv = .exited [] (failMsg (resolvePath argv) exc) 2 := by
  simp only [run, hfs]

theorem c2_witness :
    run (fun _ => ReadResult.osError "Permission denied".data)
        ["extract-oci-description.py", "secret/Dockerfile"]
      = .exited [] (failMsg "secret/Dockerfile" "Permission denied".data) 2 :=
  c2_oserror_exits_2
    (fun _ => ReadResult.osError "Permission denied".data)
    ["extract-oci-description.py", "secret/Dockerfile"]
    "Permission denied".data rfl

/-- C3: for every file that is read successfully but whose text has no
occurrence of the label pattern, the tool writes the fixed message
`Missing org.opencontainers.image.description label in Dockerfile` (and
the newline appended by `print`) to standard error, nothing to standard
output, and terminates with exit status 3. -/
theorem c3_missing_label_exits_3 (fs : String → ReadResult) (argv : List String)
    (text : List Char)
    (hfs : fs (resolvePath argv) = .ok text)
    (hnone : searchFirst text = none) :
    run fs argv = .exited [] missingMsg 3 := by
  simp only [run, hfs, hnone]

theorem c3_witness :
    run (fun p => if p = "Dockerfile"
          then ReadResult.ok "FROM alpine:3.20\nRUN echo hi\n".data
          else ReadResult.osError "No such file or directory".data)
        ["extract-oci-description.py"]
      = .exited [] missingMsg 3 :=
  c3_missing_label_exits_3
    (fun p => if p = "Dockerfile"
      then ReadResult.ok "FROM alpine:3.20\nRUN echo hi\n".data
      else ReadResult.osError "No such file or directory".data)
    ["extract-oci-description.py"]
    "FROM alpine:3.20\nRUN echo hi\n".data
    (by decide) (by decide)

/-- C4 counterexample: in Python a negated character class matches
newline, so `[^"]+` spans lines. On a file whose only label occurrence
has the quoted value `a\nb`, the claim predicts a non-match and exit
status 3, but the script matches it, prints `a`, newline, `b`, newline
to stdout and exits 0. -/
theorem c4_counterexample :
    run (fun p => if p = "Dockerfile"
          then ReadResult.ok "org.opencontainers.image.description = \"a\nb\"\n".data
          else ReadResult.osError "No such file or directory".data)
        ["extract-oci-description.py"]
      = .exited "a\nb\n".data [] 0
    ∧ exitCodeOf (run
        (fun p => if p = "Dockerfile"
          then ReadResult.ok "org.opencontainers.image.description = \"a\nb\"\n".data
          else ReadResult.osError "No such file or directory".data)
        ["extract-oci-description.py"]) ≠ 3 := by
  exact ⟨by decide, by decide⟩

/-- C4 (amended): a quoted label value that spans multiple lines (contains
a newline) still matches, because the class `[^"]` matches every character
other than `"`, newline included; the value is printed verbatim (newlines
and all) followed by a newline, with exit status 0. -/
theorem c4_multiline_value_matches (fs : String → ReadResult) (argv : List String)
    (pre ws1 ws2 v tail : List Char)
    (hpre : ∀ i < pre.length,
      keyChars.isPrefixOf (List.drop i (pre ++ labelOcc ws1 ws2 v tail)) = false)
    (hws1 : ∀ c ∈ ws1, isRegexSpace c = true)
    (hws2 : ∀ c ∈ ws2, isRegexSpace c = true)
    (hnl : '\n' ∈ v) (hq : '"' ∉ v)
    (hfs : fs (resolvePath argv) = .ok (pre ++ labelOcc ws1 ws2 v tail)) :
    run fs argv = .exited (v ++ ['\n']) [] 0 :=
  run_success_of_labelOcc fs argv pre ws1 ws2 v tail hpre hws1 hws2
    (by intro h; subst h; simp at hnl) hq hfs

theorem c4_witness :
    run (fun p => if p = "Dockerfile"
          then ReadResult.ok "org.opencontainers.image.description=\"first line\nsecond line\"\n".data
          else ReadResult.osError "No such file or directory".data)
        ["extract-oci-description.py"]
      = .exited ("first line\nsecond line".data ++ ['\n']) [] 0 :=
  c4_multiline_value_matches
    (fun p => if p = "Dockerfile"
      then ReadResult.ok "org.opencontainers.image.description=\"first line\nsecond line\"\n".data
      else ReadResult.osError "No such file or directory".data)
    ["extract-oci-description.py"]
    [] [] [] "first line\nsecond line".data ['\n']
    (by decide) (by decide) (by decide) (by decide) (by decide) (by decide)

/-- C5: when the text is a no-match-start region followed by one label
occurrence with value v1 and, further right, another label occurrence
with value v2, the value printed to standard output is v1, the capture
of the leftmost occurrence; the later occurrence has no effect. -/
theorem c5_first_match_wins (fs : String → ReadResult) (argv : List String)
    (pre ws1 ws2 v1 mid ws3 ws4 v2 tail : List Char)
    (hpre : ∀ i < pre.length, keyChars.isPrefixOf
      (List.drop i (pre ++ labelOcc ws1 ws2 v1 (mid ++ labelOcc ws3 ws4 v2 tail))) = false)
    (hws1 : ∀ c ∈ ws1, isRegexSpace c = true)
    (hws2 : ∀ c ∈ ws2, isRegexSpace c = true)
    (hv1 : v1 ≠ []) (hq1 : '"' ∉ v1)
    (hfs : fs (resolvePath argv)
      = .ok (pre ++ labelOcc ws1 ws2 v1 (mid ++ labelOcc ws3 ws4 v2 tail))) :
    run fs argv = .exited (v1 ++ ['\n']) [] 0 :=
  run_success_of_labelOcc fs argv pre ws1 ws2 v1 (mid ++ labelOcc ws3 ws4 v2 tail)
    hpre hws1 hws2 hv1 hq1 hfs

theorem c5_witness :
    run (fun p => if p = "Dockerfile"
          then ReadResult.ok
            "org.opencontainers.image.description = \"first\"\norg.opencontainers.image.description = \"second\"\n".data
          else ReadResult.osError "No such file or directory".data)
        ["extract-oci-description.py"]
      = .exited ("first".data ++ ['\n']) [] 0 :=
  c5_first_match_wins
    (fun p => if p = "Dockerfile"
      then ReadResult.ok
        "org.opencontainers.image.description = \"first\"\norg.opencontainers.image.description = \"second\"\n".data
      else ReadResult.osError "No such file or directory".data)
    ["extract-oci-description.py"]
    [] [' '] [' '] "first".data ['\n'] [' '] [' '] "second".data ['\n']
    (by decide) (by decide) (by decide) (by decide) (by decide) (by decide)

/-- C6: path resolution — with at least one positional argument after the
program name, `sys.argv[1]` is the file path; with none, the literal
relative path `Dockerfile` is used (also when `sys.argv` is empty). -/
theorem c6_path_resolution (prog a : String) (rest : List String) :
    resolvePath (prog :: a :: rest) = a
    ∧ resolvePath [prog] = "Dockerfile"
    ∧ resolvePath [] = "Dockerfile" := by
  refine ⟨?_, ?_, rfl⟩
  · have h : 1 < (prog :: a :: rest).length := by simp
    simp [resolvePath, h]
  · simp [resolvePath]

/-- C7: on every failure path (any outcome whose exit status is nonzero,
which covers statuses 2 and 3 as well as an unhandled exception), nothing
is written to standard output. -/
theorem c7_stdout_empty_on_failure (fs : String → ReadResult) (argv : List String)
    (h : exitCodeOf (run fs argv) ≠ 0) :
    stdoutOf (run fs argv) = [] := by
  simp only [run] at h ⊢
  cases hfs : fs (resolvePath argv) with
  | osError exc => simp [hfs, stdoutOf]
  | unicodeDecodeError exc => simp [hfs, stdoutOf]
  | ok text =>
    cases hs : searchFirst text with
    | none => simp [hfs, hs, stdoutOf]
    | some v => simp [hfs, hs, exitCodeOf] at h

theorem c7_witness :
    exitCodeOf (run (fun _ => ReadResult.osError "No such file or directory".data)
        ["extract-oci-description.py", "missing/Dockerfile"]) ≠ 0
    ∧ stdoutOf (run (fun _ => ReadResult.osError "No such file or directory".data)
        ["extract-oci-description.py", "missing/Dockerfile"]) = [] :=
  ⟨by decide,
    c7_stdout_empty_on_failure
      (fun _ => ReadResult.osError "No such file or directory".data)
      ["extract-oci-description.py", "missing/Dockerfile"] (by decide)⟩

/-- C8: the outcome of an invocation is a pure function of the argument
list and of the file text read at the resolved path: two invocations whose
reads of that path agree produce identical stdout, stderr and exit status.
In particular two runs over the same unchanged file system coincide. -/
theorem c8_deterministic (fs1 fs2 : String → ReadResult) (argv : List String)
    (h : fs1 (resolvePath argv) = fs2 (resolvePath argv)) :
    run fs1 argv = run fs2 argv := by
  simp only [run, h]

theorem c8_witness :
    (fun p => if p = "Dockerfile"
        then ReadResult.ok "FROM alpine\n".data
        else ReadResult.osError "first run".data) (resolvePath ["extract-oci-description.py"])
      = (fun p => if p = "Dockerfile"
        then ReadResult.ok "FROM alpine\n".data
        else ReadResult.osError "second run".data) (resolvePath ["extract-oci-description.py"])
    ∧ run (fun p => if p = "Dockerfile"
        then ReadResult.ok "FROM alpine\n".data
        else ReadResult.osError "first run".data) ["extract-oci-description.py"]
      = run (fun p => if p = "Dockerfile"
        then ReadResult.ok "FROM alpine\n".data
        else ReadResult.osError "second run".data) ["extract-oci-description.py"] :=
  ⟨by decide,
    c8_deterministic
      (fun p => if p = "Dockerfile"
        then ReadResult.ok "FROM alpine\n".data
        else ReadResult.osError "first run".data)
      (fun p => if p = "Dockerfile"
        then ReadResult.ok "FROM alpine\n".data
        else ReadResult.osError "second run".data)
      ["extract-oci-description.py"] (by decide)⟩

/-- C9: a file whose only occurrence of the label (the key appears nowhere
except at the start) carries an empty quoted value does not match — the
`+` quantifier in `([^"]+)` needs at least one non-quote character — so
the tool emits the missing-label message and exits with status 3 instead
of printing an empty line with status 0. -/
theorem c9_empty_value_exits_3 (fs : String → ReadResult) (argv : List String)
    (ws1 ws2 post : List Char)
    (hws1 : ∀ c ∈ ws1, isRegexSpace c = true)
    (hws2 : ∀ c ∈ ws2, isRegexSpace c = true)
    (honly : ∀ i < (labelOcc ws1 ws2 [] post).length, 1 ≤ i →
      keyChars.isPrefixOf (List.drop i (labelOcc ws1 ws2 [] post)) = false)
    (hfs : fs (resolvePath argv) = .ok (labelOcc ws1 ws2 [] post)) :
    run fs argv = .exited [] missingMsg 3 := by
  have hnone : searchFirst (labelOcc ws1 ws2 [] post) = none := by
    apply searchFirst_eq_none
    intro i
    cases i with
    | zero => simpa using matchAt_labelOcc_empty ws1 ws2 post hws1 hws2
    | succ j =>
      by_cases hlen : j + 1 < (labelOcc ws1 ws2 [] post).length
      · exact matchAt_eq_none_of_not_key _ (honly (j + 1) hlen (by omega))
      · rw [List.drop_eq_nil_of_le (by omega)]
        exact matchAt_nil
  simp only [run, hfs, hnone]

theorem c9_witness :
    run (fun p => if p = "Dockerfile"
          then ReadResult.ok (labelOcc [' '] [' '] [] ['\n'])
          else ReadResult.osError "No such file or directory".data)
        ["extract-oci-description.py"]
      = .exited [] missingMsg 3 :=
  c9_empty_value_exits_3
    (fun p => if p = "Dockerfile"
      then ReadResult.ok (labelOcc [' '] [' '] [] ['\n'])
      else ReadResult.osError "No such file or directory".data)
    ["extract-oci-description.py"]
    [' '] [' '] ['\n']
    (by decide) (by decide) (by decide) (by decide)

/-- C10: the pattern is matched against the raw file text with no
anchoring to a `LABEL` instruction or to line structure: an occurrence
sitting after a `#` on the same line — i.e. inside a comment line — still
matches, and its value is printed with exit status 0. -/
theorem c10_no_anchoring (fs : String → ReadResult) (argv : List String)
    (p1 p2 ws1 ws2 v tail : List Char)
    (hpre : ∀ i < (p1 ++ '#' :: p2).length, keyChars.isPrefixOf
      (List.drop i ((p1 ++ '#' :: p2) ++ labelOcc ws1 ws2 v tail)) = false)
    (_hnl : '\n' ∉ p2)
    (hws1 : ∀ c ∈ ws1, isRegexSpace c = true)
    (hws2 : ∀ c ∈ ws2, isRegexSpace c = true)
    (hv : v ≠ []) (hq : '"' ∉ v)
    (hfs : fs (resolvePath argv) = .ok ((p1 ++ '#' :: p2) ++ labelOcc ws1 ws2 v tail)) :
    run fs argv = .exited (v ++ ['\n']) [] 0 :=
  run_success_of_labelOcc fs argv (p1 ++ '#' :: p2) ws1 ws2 v tail hpre hws1 hws2 hv hq hfs

theorem c10_witness :
    run (fun p => if p = "Dockerfile"
          then ReadResult.ok "# note org.opencontainers.image.description = \"hidden value\"\n".data
          else ReadResult.osError "No such file or directory".data)
        ["extract-oci-description.py"]
      = .exited ("hidden value".data ++ ['\n']) [] 0 :=
  c10_no_anchoring
    (fun p => if p = "Dockerfile"
      then ReadResult.ok "# note org.opencontainers.image.description = \"hidden value\"\n".data
      else ReadResult.osError "No such file or directory".data)
    ["extract-oci-description.py"]
    [] " note ".data [' '] [' '] "hidden value".data ['\n']
    (by decide) (by decide) (by decide) (by decide) (by decide) (by decide) (by decide)

end ExtractOciDescription
